import Mathlib

/-!
Verification development for the btx2.0 data-collection scripts.

Each Python source operation used by the spec's claims is shallowly embedded
as an executable Lean definition; cell values become a `Value` variant
(string / rational number / null, where null models pandas NaN), frames
become lists of rows, and fallible operations return `Option`.
-/

/-- A cell value of a tabular record set: a string, a number (pandas numeric
values are modelled as rationals), or null (pandas NaN). -/
inductive Value where
  | str (s : String)
  | num (q : ℚ)
  | null
deriving DecidableEq, Repr

/-- Numeric value of a decimal digit character, `none` on a non-digit. -/
def digitVal (c : Char) : Option Nat :=
  if c.isDigit then some (c.toNat - 48) else none

/-- Left-to-right accumulation of decimal digits; `none` if any character is
not a digit. -/
def parseDigits : List Char → Nat → Option Nat
  | [], acc => some acc
  | c :: cs, acc =>
    match digitVal c with
    | some d => parseDigits cs (acc * 10 + d)
    | none => none

/-- Parse an unsigned decimal literal (integer part, optional fractional
part) from a character list. -/
def parse_unsigned (cs : List Char) : Option ℚ :=
  if cs.isEmpty then none
  else
    let intPart := cs.takeWhile (fun c => c != '.')
    match cs.dropWhile (fun c => c != '.') with
    | [] => (parseDigits intPart 0).map (fun n => (n : ℚ))
    | _ :: frac =>
      if frac.isEmpty then
        (parseDigits intPart 0).map (fun n => (n : ℚ))
      else
        match parseDigits intPart 0, parseDigits frac 0 with
        | some i, some fr =>
          some ((i : ℚ) + (fr : ℚ) / ((10 : ℚ) ^ frac.length))
        | _, _ => none

/-- Parse a decimal numeric literal (optional sign, integer part, optional
fractional part), the shape of values `pandas.to_numeric` accepts in the
scraped tables.  Returns `none` for non-numeric text such as `"abc"`. -/
def parse_num (s : String) : Option ℚ :=
  match s.toList with
  | '-' :: t => (parse_unsigned t).map (fun q => -q)
  | '+' :: t => parse_unsigned t
  | t => parse_unsigned t

/-- `pandas.to_numeric(col, errors="coerce")` applied to one cell: numbers
and nulls pass through, a string parses to a number or is coerced to NaN
(modelled as `Value.null`) when parsing fails.  It never produces a string
and never raises. -/
def to_numeric (v : Value) : Value :=
  match v with
  | .str s =>
    match parse_num s with
    | some q => .num q
    | none => .null
  | .num q => .num q
  | .null => .null

/-- Column labels of a frame: either a flat single-level index, or a pandas
MultiIndex whose per-column label levels are `Option String` (a `none` level
models a NaN label, filtered by the `pd.notna` check in the source). -/
inductive Header where
  | flat (names : List String)
  | multi (levels : List (List (Option String)))
deriving DecidableEq, Repr

/-- A DataFrame as the scripts see it: column labels plus rows of cells. -/
structure Frame where
  header : Header
  rows : List (List Value)
deriving DecidableEq, Repr

/-- Drop all leading and trailing underscores, the `.strip('_')` in
`clean_fbref_dataframe`. -/
def stripUnderscores (s : String) : String :=
  String.mk (((s.toList.dropWhile (fun c => c == '_')).reverse.dropWhile
    (fun c => c == '_')).reverse)

/-- Flatten one MultiIndex column label:
`'_'.join(str(c) for c in col if pd.notna(c) and str(c) != '').strip('_')`. -/
def flatten_col (levels : List (Option String)) : String :=
  stripUnderscores
    (String.intercalate "_" ((levels.filterMap id).filter (fun c => c != "")))

/-- The flat column names `clean_fbref_dataframe` works with after its
MultiIndex flattening step (a flat index is left as is). -/
def flat_cols (f : Frame) : List String :=
  match f.header with
  | .flat ns => ns
  | .multi ls => ls.map flatten_col

/-- The identity-field exclusion list of `clean_fbref_dataframe`. -/
def identity_cols : List String := ["Player", "Squad", "Nation", "Pos", "Comp", "Born"]

/-- Per-row numeric coercion of `clean_fbref_dataframe`: each cell of a
column not in the identity list goes through `to_numeric`; identity columns
are untouched. -/
def coerce_row (cols : List String) (r : List Value) : List Value :=
  (cols.zip r).map (fun p => if p.1 ∈ identity_cols then p.2 else to_numeric p.2)

/-- The row-drop step `df = df[df.iloc[:, 0] != df.columns[0]]`: keep exactly
the rows whose first cell differs from the (string) name of the first
column.  A numeric or NaN first cell never equals the column-name string,
matching pandas elementwise comparison of mixed types. -/
def drop_header_rows (c0 : String) (rows : List (List Value)) : List (List Value) :=
  rows.filter (fun r => r.head? != some (Value.str c0))

/-- `clean_fbref_dataframe`: flatten MultiIndex labels, drop rows whose
first cell repeats the first column name, then coerce non-identity columns
with `to_numeric(errors="coerce")`.  A frame with no columns makes
`df.iloc[:, 0]` raise in the source, modelled as `none`. -/
def clean_fbref_dataframe (f : Frame) : Option Frame :=
  match flat_cols f with
  | [] => none
  | c0 :: rest =>
    some { header := .flat (c0 :: rest)
           rows := (drop_header_rows c0 f.rows).map (coerce_row (c0 :: rest)) }

/-! ### Table Locator (`scrape_fbref_table`) -/

/-- One parsed HTML table as `scrape_fbref_table` inspects it: the
last-level column names (`df.columns.get_level_values(-1)`) and the record
count (`len(df)`). -/
structure HTable where
  cols : List String
  nrows : Nat
deriving DecidableEq, Repr

/-- A piece of the fetched HTML document relevant to table location: a
visible table, or a table wrapped in HTML comment delimiters with the given
text (in practice whitespace) between `<!--` / `-->` and the table tags. -/
inductive Seg where
  | vis (t : HTable)
  | com (pre : String) (t : HTable) (post : String)
deriving DecidableEq, Repr

/-- The reveal-then-parse step of `scrape_fbref_table`.  The regex
`<!--\s*(<table[^>]*>.*?</table>)\s*-->` captures a commented table without
the surrounding whitespace, and the code substitutes the exact string
`"<!--" + table + "-->"`; that literal occurs in the document only when
there is no text between the comment delimiters and the table, so a
commented table is revealed to `pd.read_html` exactly when `pre` and `post`
are empty; otherwise it stays inside a comment and is not parsed. -/
def parse_tables (doc : List Seg) : List HTable :=
  doc.filterMap (fun s =>
    match s with
    | .vis t => some t
    | .com pre t post => if pre = "" ∧ post = "" then some t else none)

/-- ASCII lowercase of one character, as Python `str.lower()` acts on the
column names in play. -/
def lower_char (c : Char) : Char :=
  if c.isUpper then Char.ofNat (c.toNat + 32) else c

/-- ASCII lowercase of a string (`str(c).lower()` in the source). -/
def lower_string (s : String) : String :=
  String.mk (s.toList.map lower_char)

/-- The identity markers of the candidate filter in `scrape_fbref_table`. -/
def identity_markers : List String := ["player", "squad", "nation", "pos", "age"]

/-- `any(x in cols for x in ["player","squad","nation","pos","age"])` over
the lowercased column names. -/
def is_player_table (t : HTable) : Bool :=
  identity_markers.any (fun x => (t.cols.map lower_string).contains x)

/-- First table of the list having the maximal record count.  This is both
`player_tables.sort(key=len, reverse=True)` followed by taking the head
(Python sort is stable, so ties keep their original order) and
`max(tables, key=len)` (Python `max` returns the first maximal element). -/
def pick_largest : List HTable → Option HTable
  | [] => none
  | t :: ts =>
    match pick_largest ts with
    | none => some t
    | some u => if u.nrows > t.nrows then some u else some t

/-- `scrape_fbref_table` after the fetch: reveal commented tables, parse,
filter candidates by identity markers, pick the largest candidate, else
fall back to the largest table overall. -/
def scrape_fbref_table (doc : List Seg) : Option HTable :=
  let tables := parse_tables doc
  if tables.isEmpty then none
  else
    let player_tables := tables.filter is_player_table
    if player_tables.isEmpty then pick_largest tables
    else pick_largest player_tables

/-! ### Per-90 rates (`scrape_league_players`) -/

/-- IEEE-style extended value for the pandas float arithmetic of the per-90
computation: a finite value (modelled as a rational), positive or negative
infinity, or NaN.  Division by zero yields an infinity or NaN and never
raises, matching numpy float division. -/
inductive PFloat where
  | fin (q : ℚ)
  | inf
  | ninf
  | nan
deriving DecidableEq, Repr

/-- Float division: finite/finite is exact except that division by zero
gives `inf`, `ninf` or `nan` by the dividend's sign, as in numpy. -/
def PFloat.div : PFloat → PFloat → PFloat
  | .fin a, .fin b =>
    if b ≠ 0 then .fin (a / b)
    else if a > 0 then .inf
    else if a < 0 then .ninf
    else .nan
  | .inf, .fin b => if b ≥ 0 then .inf else .ninf
  | .ninf, .fin b => if b ≥ 0 then .ninf else .inf
  | .fin _, .inf => .fin 0
  | .fin _, .ninf => .fin 0
  | _, _ => .nan

/-- Float multiplication with infinities and NaN, as in numpy. -/
def PFloat.mul : PFloat → PFloat → PFloat
  | .fin a, .fin b => .fin (a * b)
  | .inf, .fin b => if b > 0 then .inf else if b < 0 then .ninf else .nan
  | .fin a, .inf => if a > 0 then .inf else if a < 0 then .ninf else .nan
  | .ninf, .fin b => if b > 0 then .ninf else if b < 0 then .inf else .nan
  | .fin a, .ninf => if a > 0 then .ninf else if a < 0 then .inf else .nan
  | .inf, .inf => .inf
  | .ninf, .ninf => .inf
  | .inf, .ninf => .ninf
  | .ninf, .inf => .ninf
  | _, _ => .nan

/-- Float addition with infinities and NaN, as in numpy. -/
def PFloat.add : PFloat → PFloat → PFloat
  | .fin a, .fin b => .fin (a + b)
  | .inf, .fin _ => .inf
  | .fin _, .inf => .inf
  | .ninf, .fin _ => .ninf
  | .fin _, .ninf => .ninf
  | .inf, .inf => .inf
  | .ninf, .ninf => .ninf
  | _, _ => .nan

/-- Whether a value is a finite number (neither an infinity nor NaN). -/
def PFloat.isFinite : PFloat → Bool
  | .fin _ => true
  | _ => false

/-- One Understat player record, with the columns the per-90 step reads
(after `df["minutes"] = df["time"]`). -/
structure PlayerRow where
  xG : PFloat
  xA : PFloat
  time : PFloat
deriving DecidableEq, Repr

/-- `(total / minutes) * 90`, the rate formula of `scrape_league_players`. -/
def per90 (total minutes : PFloat) : PFloat :=
  (total.div minutes).mul (.fin 90)

/-- The three derived columns of `scrape_league_players`:
`xG_per90 = (xG / minutes) * 90`, `xA_per90 = (xA / minutes) * 90`,
`xGI_per90 = xG_per90 + xA_per90`. -/
def player_rates (p : PlayerRow) : PFloat × PFloat × PFloat :=
  let minutes := p.time
  let xg90 := (p.xG.div minutes).mul (.fin 90)
  let xa90 := (p.xA.div minutes).mul (.fin 90)
  (xg90, xa90, xg90.add xa90)

/-! ### Standings aggregation (`download_current_season_detailed`) -/

/-- One football-data.co.uk match row as read by
`download_current_season_detailed`: home/away team names, full-time goals
and the full-time result tag `FTR` (`"H"`, `"D"` or `"A"`). -/
structure MatchRow where
  homeTeam : String
  awayTeam : String
  fthg : ℤ
  ftag : ℤ
  ftr : String
deriving DecidableEq, Repr

/-- One derived standings record of `download_current_season_detailed`
(shot columns omitted; they play no role in the claims). -/
structure TeamStat where
  team : String
  P : Nat
  W : Nat
  D : Nat
  L : Nat
  GF : ℤ
  GA : ℤ
  GD : ℤ
  Pts : Nat
deriving DecidableEq, Repr

/-- The per-team aggregation loop body of `download_current_season_detailed`:
partition the matches by home/away role, bucket them through `FTR`, sum the
goal columns across both roles, and compute
`points = (home_wins + away_wins) * 3 + (home_draws + away_draws)`. -/
def team_stats_for (df : List MatchRow) (team : String) : TeamStat :=
  let home := df.filter (fun m => m.homeTeam == team)
  let away := df.filter (fun m => m.awayTeam == team)
  let home_wins := (home.filter (fun m => m.ftr == "H")).length
  let home_draws := (home.filter (fun m => m.ftr == "D")).length
  let home_losses := (home.filter (fun m => m.ftr == "A")).length
  let away_wins := (away.filter (fun m => m.ftr == "A")).length
  let away_draws := (away.filter (fun m => m.ftr == "D")).length
  let away_losses := (away.filter (fun m => m.ftr == "H")).length
  let goals_for := (home.map (fun m => m.fthg)).sum + (away.map (fun m => m.ftag)).sum
  let goals_against := (home.map (fun m => m.ftag)).sum + (away.map (fun m => m.fthg)).sum
  let points := (home_wins + away_wins) * 3 + (home_draws + away_draws)
  let played := home.length + away.length
  { team := team
    P := played
    W := home_wins + away_wins
    D := home_draws + away_draws
    L := home_losses + away_losses
    GF := goals_for
    GA := goals_against
    GD := goals_for - goals_against
    Pts := points }

/-- Outcome bucket of a match from one team's perspective. -/
inductive Outcome where
  | win
  | draw
  | loss
deriving DecidableEq, Repr

/-- Stated from the claim's wording, for comparison with `team_stats_for`:
in the home role a home-win (`"H"`) is a win and an away-win (`"A"`) a
loss; in the away role an away-win is a win and a home-win a loss; a draw
(`"D"`) is a draw in both roles; a team not playing (or an unrecognized
tag) falls in no bucket. -/
def spec_outcome_for (team : String) (m : MatchRow) : Option Outcome :=
  if m.homeTeam = team then
    if m.ftr = "H" then some .win
    else if m.ftr = "D" then some .draw
    else if m.ftr = "A" then some .loss
    else none
  else if m.awayTeam = team then
    if m.ftr = "A" then some .win
    else if m.ftr = "D" then some .draw
    else if m.ftr = "H" then some .loss
    else none
  else none

/-- Stated from the claim's wording: the goals a team scores in a match
(home goals in the home role, away goals in the away role, none
otherwise). -/
def spec_goals_for (team : String) (m : MatchRow) : ℤ :=
  if m.homeTeam = team then m.fthg else if m.awayTeam = team then m.ftag else 0

/-- Stated from the claim's wording: the goals a team concedes in a match. -/
def spec_goals_against (team : String) (m : MatchRow) : ℤ :=
  if m.homeTeam = team then m.ftag else if m.awayTeam = team then m.fthg else 0

/-! ### Expected-goals season aggregation (`scrape_league_teams`) -/

/-- One entry of a team's `history` array in Understat's `teamsData`:
per-match expected goals for/against, actual goals scored/conceded, and a
result tag (`"w"`, `"d"` or `"l"`). -/
structure UMatch where
  xG : ℚ
  xGA : ℚ
  scored : ℤ
  missed : ℤ
  result : String
deriving DecidableEq, Repr

/-- Round half to even at integer precision, the tie rule of Python's
`round`. -/
def roundHalfEven (q : ℚ) : ℤ :=
  let f := ⌊q⌋
  let r := q - f
  if r < 1 / 2 then f
  else if r > 1 / 2 then f + 1
  else if f % 2 = 0 then f else f + 1

/-- Python `round(x, 2)` on an exact value. -/
def round2 (q : ℚ) : ℚ := (roundHalfEven (q * 100) : ℚ) / 100

/-- One derived team record of `scrape_league_teams`. -/
structure UTeamRow where
  team : String
  played : Nat
  wins : Nat
  draws : Nat
  losses : Nat
  goals_for : ℤ
  goals_against : ℤ
  goal_diff : ℤ
  points : Nat
  xG : ℚ
  xGA : ℚ
  xG_diff : ℚ
  xG_per_game : ℚ
  xGA_per_game : ℚ
deriving DecidableEq, Repr

/-- The per-team aggregation of `scrape_league_teams` over one `history`
array: sums of expected and actual goals, result-tag counts,
`points = wins * 3 + draws`, and rounded per-game rates (`0` when the
history is empty, per the `if history else 0` guards). -/
def scrape_league_teams_row (team_name : String) (history : List UMatch) : UTeamRow :=
  let total_xG := (history.map (fun m => m.xG)).sum
  let total_xGA := (history.map (fun m => m.xGA)).sum
  let total_scored := (history.map (fun m => m.scored)).sum
  let total_missed := (history.map (fun m => m.missed)).sum
  let total_wins := (history.filter (fun m => m.result == "w")).length
  let total_draws := (history.filter (fun m => m.result == "d")).length
  let total_losses := (history.filter (fun m => m.result == "l")).length
  { team := team_name
    played := history.length
    wins := total_wins
    draws := total_draws
    losses := total_losses
    goals_for := total_scored
    goals_against := total_missed
    goal_diff := total_scored - total_missed
    points := total_wins * 3 + total_draws
    xG := round2 total_xG
    xGA := round2 total_xGA
    xG_diff := round2 (total_xG - total_xGA)
    xG_per_game := if history.isEmpty then 0 else round2 (total_xG / history.length)
    xGA_per_game := if history.isEmpty then 0 else round2 (total_xGA / history.length) }

/-! ### Merge sink (`merge_all_stats`) -/

/-- A flat CSV frame as `merge_all_stats` reloads them from disk. -/
structure CsvFrame where
  cols : List String
  rows : List (List Value)
deriving DecidableEq, Repr

/-- The cell of a row under a named column (frames have unique column
names; a missing column or short row reads as NaN). -/
def cell (cols : List String) (r : List Value) (c : String) : Value :=
  match cols.indexOf? c with
  | some i => r.getD i Value.null
  | none => Value.null

/-- Column projection `df[new_cols]`. -/
def select (f : CsvFrame) (cs : List String) : CsvFrame :=
  { cols := cs
    rows := f.rows.map (fun r => cs.map (fun c => cell f.cols r c)) }

/-- `merged.merge(other, on=key, how="left")` for frames whose only shared
column is `key` (the caller guarantees this by pre-selecting columns):
output columns are the base columns followed by the other frame's non-key
columns; every base row is kept, paired with each key-matching row of the
other frame, or padded with NaN when there is no match. -/
def merge_left (base other : CsvFrame) (key : String) : CsvFrame :=
  { cols := base.cols ++ other.cols.filter (fun c => c != key)
    rows := base.rows.flatMap (fun r =>
      if (other.rows.filter
            (fun s => cell other.cols s key == cell base.cols r key)).isEmpty then
        [r ++ (other.cols.filter (fun c => c != key)).map (fun _ => Value.null)]
      else
        (other.rows.filter
            (fun s => cell other.cols s key == cell base.cols r key)).map
          (fun s => r ++ (other.cols.filter (fun c => c != key)).map
            (fun c => cell other.cols s c))) }

/-- One iteration of the merge loop in `merge_all_stats`:
`new_cols = [c for c in df.columns if c not in merged.columns or c == player_col]`,
then a left join on the player column when `new_cols` holds anything beyond
the key. -/
def merge_step (merged df : CsvFrame) (player_col : String) : CsvFrame :=
  let new_cols := df.cols.filter (fun c => !(merged.cols.contains c) || c == player_col)
  if new_cols.length > 1 then merge_left merged (select df new_cols) player_col
  else merged

/-! ### Orchestrator (`refresh_data.py`) -/

/-- How one invoked scraper subprocess can end, as `run_scraper`
distinguishes the cases: the script file is missing, the process completes
with a return code, the 120-second timeout fires
(`subprocess.TimeoutExpired`), or some other exception is raised. -/
inductive RunOutcome where
  | notFound
  | completed (returncode : ℤ)
  | timedOut
  | raised (msg : String)
deriving DecidableEq, Repr

/-- `run_scraper`: `True` exactly when the subprocess completed with return
code 0; a missing script, nonzero exit, timeout or exception all yield
`False` (and never propagate). -/
def run_scraper (o : RunOutcome) : Bool :=
  match o with
  | .completed rc => rc == 0
  | _ => false

/-- The pipeline-running part of `refresh_data.main` (after the
confirmation prompt): run the three scrapers unconditionally in their fixed
order, record each outcome under its name, and report
`success_count` out of `total_count`. -/
def refresh_main (fbref understat fpl : RunOutcome) :
    List (String × Bool) × Nat × Nat :=
  let results := [("fbref", run_scraper fbref),
                  ("understat", run_scraper understat),
                  ("fpl", run_scraper fpl)]
  (results, (results.filter (fun p => p.2)).length, results.length)

/-! ### Helper lemmas -/

theorem to_numeric_idem (v : Value) : to_numeric (to_numeric v) = to_numeric v := by
  cases v with
  | str s =>
    simp only [to_numeric]
    cases parse_num s <;> simp [to_numeric]
  | num q => rfl
  | null => rfl

theorem to_numeric_ne_str (v : Value) (s : String) : to_numeric v ≠ Value.str s := by
  cases v with
  | str s' =>
    simp only [to_numeric]
    cases parse_num s' <;> simp
  | num q => simp [to_numeric]
  | null => simp [to_numeric]

theorem coerce_row_getElem (cols : List String) (r : List Value) (i : Nat) :
    (coerce_row cols r)[i]? =
      (cols[i]?).bind (fun c =>
        (r[i]?).map (fun v => if c ∈ identity_cols then v else to_numeric v)) := by
  induction cols generalizing r i with
  | nil => simp [coerce_row]
  | cons c cs ih =>
    cases r with
    | nil => simp [coerce_row]
    | cons v vs =>
      cases i with
      | zero => simp [coerce_row]
      | succ n => simpa [coerce_row] using ih vs n

theorem clean_some (f : Frame) (g : Frame) (h : clean_fbref_dataframe f = some g)
    (c0 : String) (rest : List String) (hcs : flat_cols f = c0 :: rest) :
    g = { header := .flat (c0 :: rest)
          rows := (drop_header_rows c0 f.rows).map (coerce_row (c0 :: rest)) } := by
  rw [clean_fbref_dataframe.eq_def, hcs] at h
  exact (Option.some.inj h).symm

/-! ### Claim C1 -/

/-- C1 counterexample: in `clean_fbref_dataframe`, the non-identity field
`"Gls"` holding the non-numeric string `"abc"` is coerced with
`errors="coerce"`, so the failed coercion yields NaN (null) in the output
rather than leaving the original string `"abc"` in place, contradicting the
claim as stated. -/
theorem C1_counterexample :
    clean_fbref_dataframe
        { header := .flat ["Player", "Gls"]
          rows := [[Value.str "Messi", Value.str "abc"]] } =
      some { header := .flat ["Player", "Gls"]
             rows := [[Value.str "Messi", Value.null]] } ∧
    ("Gls" : String) ∉ identity_cols ∧
    Value.null ≠ Value.str "abc" := by
  refine ⟨by decide, by decide, by decide⟩

/-- C1 (amended): in the Record Normalizer, every field named in the
identity exclusion list keeps its value untouched in every surviving row,
every other field goes through `to_numeric`, and when coercion of a string
value fails the cell becomes the null/NaN marker — no exception is raised
(the embedding is total). -/
theorem C1_clean_identity_and_coercion (f g : Frame)
    (h : clean_fbref_dataframe f = some g)
    (i : Nat) (c : String) (hc : (flat_cols f)[i]? = some c)
    (r' : List Value) (hr : r' ∈ g.rows) :
    ∃ r ∈ f.rows,
      (c ∈ identity_cols → r'[i]? = r[i]?) ∧
      (c ∉ identity_cols → r'[i]? = (r[i]?).map to_numeric) ∧
      (c ∉ identity_cols → ∀ s, r[i]? = some (Value.str s) → parse_num s = none →
        r'[i]? = some Value.null) := by
  rcases hcs : flat_cols f with _ | ⟨c0, rest⟩
  · rw [clean_fbref_dataframe.eq_def, hcs] at h
    cases h
  · have hg := clean_some f g h c0 rest hcs
    subst hg
    simp only at hr
    obtain ⟨r, hrmem, rfl⟩ := List.mem_map.mp hr
    refine ⟨r, List.mem_of_mem_filter hrmem, ?_, ?_, ?_⟩
    · intro hid
      rw [coerce_row_getElem, ← hcs, hc]
      cases hri : r[i]? <;> simp [hid]
    · intro hnid
      rw [coerce_row_getElem, ← hcs, hc]
      cases hri : r[i]? <;> simp [hnid]
    · intro hnid s hs hparse
      rw [coerce_row_getElem, ← hcs, hc, hs]
      simp [hnid, to_numeric, hparse]

/-- C1 witness: the amended theorem at the counterexample frame, field
index 1 (`"Gls"`), cleaned output row `["Messi", null]`. -/
theorem C1_witness :
    ∃ r ∈ ({ header := .flat ["Player", "Gls"]
             rows := [[Value.str "Messi", Value.str "abc"]] } : Frame).rows,
      (("Gls" : String) ∈ identity_cols →
        ([Value.str "Messi", Value.null] : List Value)[1]? = r[1]?) ∧
      (("Gls" : String) ∉ identity_cols →
        ([Value.str "Messi", Value.null] : List Value)[1]? = (r[1]?).map to_numeric) ∧
      (("Gls" : String) ∉ identity_cols → ∀ s, r[1]? = some (Value.str s) →
        parse_num s = none →
        ([Value.str "Messi", Value.null] : List Value)[1]? = some Value.null) :=
  C1_clean_identity_and_coercion
    { header := .flat ["Player", "Gls"]
      rows := [[Value.str "Messi", Value.str "abc"]] }
    { header := .flat ["Player", "Gls"]
      rows := [[Value.str "Messi", Value.null]] }
    (by decide) 1 "Gls" (by decide)
    [Value.str "Messi", Value.null] (by decide)

/-! ### Claim C2 -/

/-- C2 counterexample: a record set whose first data row equals the header
row and whose second row starts with the first column name but is not equal
to the header row.  The code's drop test compares only the first cell with
the first column name, so it drops both rows; the claim demands that the
second row survive. -/
theorem C2_counterexample :
    (clean_fbref_dataframe
        { header := .flat ["Player", "Gls"]
          rows := [[Value.str "Player", Value.str "Gls"],
                   [Value.str "Player", Value.str "5"]] }).map Frame.rows =
      some [] ∧
    ([[Value.str "Player", Value.str "Gls"],
      [Value.str "Player", Value.str "5"]] : List (List Value))[0]? =
      some (["Player", "Gls"].map Value.str) ∧
    [Value.str "Player", Value.str "5"] ≠ ["Player", "Gls"].map Value.str := by
  refine ⟨by decide, by decide, by decide⟩

/-- C2 (amended): when the first data row equals the header row, the
Normalizer drops it — but the drop criterion is first-cell equality with
the first column name, so exactly the rows whose first cell equals that
name are dropped; every other row survives unchanged and in order (and is
then numerically coerced). -/
theorem C2_drop_header_rows (f : Frame) (c0 : String) (rest : List String)
    (hcs : flat_cols f = c0 :: rest)
    (hfirst : f.rows[0]? = some ((c0 :: rest).map Value.str))
    (g : Frame) (h : clean_fbref_dataframe f = some g) :
    (drop_header_rows c0 f.rows).Sublist f.rows ∧
    (∀ r, r ∈ drop_header_rows c0 f.rows ↔
      r ∈ f.rows ∧ r[0]? ≠ some (Value.str c0)) ∧
    ((c0 :: rest).map Value.str) ∉ drop_header_rows c0 f.rows ∧
    g.rows = (drop_header_rows c0 f.rows).map (coerce_row (c0 :: rest)) := by
  have hsub : (drop_header_rows c0 f.rows).Sublist f.rows := List.filter_sublist _
  have hmem : ∀ r, r ∈ drop_header_rows c0 f.rows ↔
      r ∈ f.rows ∧ r[0]? ≠ some (Value.str c0) := by
    intro r
    simp only [drop_header_rows, List.mem_filter, bne_iff_ne, ne_eq]
    rw [List.head?_eq_getElem?]
  refine ⟨hsub, hmem, ?_, ?_⟩
  · intro hcontra
    have := ((hmem _).mp hcontra).2
    simp at this
  · have hg := clean_some f g h c0 rest hcs
    rw [hg]

/-- C2 witness: the amended theorem at the counterexample record set. -/
theorem C2_witness :
    (drop_header_rows "Player"
        [[Value.str "Player", Value.str "Gls"],
         [Value.str "Player", Value.str "5"]]).Sublist
      [[Value.str "Player", Value.str "Gls"], [Value.str "Player", Value.str "5"]] ∧
    (∀ r, r ∈ drop_header_rows "Player"
        [[Value.str "Player", Value.str "Gls"],
         [Value.str "Player", Value.str "5"]] ↔
      r ∈ [[Value.str "Player", Value.str "Gls"],
           [Value.str "Player", Value.str "5"]] ∧
      r[0]? ≠ some (Value.str "Player")) ∧
    ((["Player", "Gls"] : List String).map Value.str) ∉
      drop_header_rows "Player"
        [[Value.str "Player", Value.str "Gls"],
         [Value.str "Player", Value.str "5"]] ∧
    ({ header := .flat ["Player", "Gls"]
       rows := ([] : List (List Value)) } : Frame).rows =
      (drop_header_rows "Player"
        [[Value.str "Player", Value.str "Gls"],
         [Value.str "Player", Value.str "5"]]).map (coerce_row ["Player", "Gls"]) :=
  C2_drop_header_rows
    { header := .flat ["Player", "Gls"]
      rows := [[Value.str "Player", Value.str "Gls"],
               [Value.str "Player", Value.str "5"]] }
    "Player" ["Gls"] (by decide) (by decide)
    { header := .flat ["Player", "Gls"], rows := [] } (by decide)

/-! ### Claim C3 -/

theorem pick_largest_ne_none (l : List HTable) (hne : l ≠ []) :
    pick_largest l ≠ none := by
  cases l with
  | nil => exact absurd rfl hne
  | cons t ts =>
    simp only [pick_largest]
    cases pick_largest ts with
    | none => simp
    | some u =>
      by_cases hlt : u.nrows > t.nrows <;> simp [hlt]

theorem pick_largest_spec (l : List HTable) (t : HTable)
    (h : pick_largest l = some t) : t ∈ l ∧ ∀ u ∈ l, u.nrows ≤ t.nrows := by
  induction l generalizing t with
  | nil => cases h
  | cons x xs ih =>
    simp only [pick_largest] at h
    cases hxs : pick_largest xs with
    | none =>
      rw [hxs] at h
      dsimp only at h
      obtain rfl := Option.some.inj h
      have hnil : xs = [] := by
        by_contra hne
        exact pick_largest_ne_none xs hne hxs
      subst hnil
      exact ⟨List.mem_cons_self _ _, by intro u hu; simp at hu; subst hu; exact le_rfl⟩
    | some u =>
      rw [hxs] at h
      dsimp only at h
      obtain ⟨hmem, hbound⟩ := ih u hxs
      by_cases hlt : u.nrows > x.nrows
      · rw [if_pos hlt] at h
        obtain rfl := Option.some.inj h
        refine ⟨List.mem_cons_of_mem _ hmem, ?_⟩
        intro w hw
        rcases List.mem_cons.mp hw with rfl | hw'
        · exact le_of_lt hlt
        · exact hbound w hw'
      · rw [if_neg hlt] at h
        obtain rfl := Option.some.inj h
        refine ⟨List.mem_cons_self _ _, ?_⟩
        intro w hw
        rcases List.mem_cons.mp hw with rfl | hw'
        · exact le_rfl
        · exact le_trans (hbound w hw') (Nat.le_of_not_lt hlt)

/-- C3 counterexample: a document whose commented table (with identity
columns) is wrapped with whitespace between the comment delimiters and the
table, plus a visible decoy without identity columns.  The reveal regex
tolerates the whitespace but the subsequent
`html.replace("<!--" + table + "-->", table)` looks for the delimiters with
no whitespace, so nothing is substituted, the table stays commented out,
and the locator falls back to the decoy — the claim as stated demands the
commented table. -/
theorem C3_counterexample :
    scrape_fbref_table
        [Seg.com " " ⟨["player", "gls"], 5⟩ " ", Seg.vis ⟨["foo"], 3⟩] =
      some ⟨["foo"], 3⟩ ∧
    is_player_table ⟨["player", "gls"], 5⟩ = true ∧
    is_player_table ⟨["foo"], 3⟩ = false ∧
    (⟨["foo"], 3⟩ : HTable) ≠ ⟨["player", "gls"], 5⟩ := by
  refine ⟨by decide, by decide, by decide, by decide⟩

/-- C3 (amended): when the comment delimiters wrap the table exactly (no
intervening text), the Locator reveals the commented identity-bearing table
and selects it over a visible decoy lacking all identity columns; whatever
the document, the selected table is an identity-matching candidate of
maximal record count when any candidate exists, and the largest table
overall when none does. -/
theorem C3_locator (doc : List Seg) (t d : HTable)
    (horder : doc = [Seg.com "" t "", Seg.vis d] ∨
              doc = [Seg.vis d, Seg.com "" t ""])
    (ht : is_player_table t = true) (hd : is_player_table d = false) :
    scrape_fbref_table doc = some t ∧
    (∀ doc' u, scrape_fbref_table doc' = some u →
      ((parse_tables doc').filter is_player_table ≠ [] →
        is_player_table u = true ∧ u ∈ parse_tables doc' ∧
        ∀ w ∈ (parse_tables doc').filter is_player_table, w.nrows ≤ u.nrows) ∧
      ((parse_tables doc').filter is_player_table = [] →
        u ∈ parse_tables doc' ∧ ∀ w ∈ parse_tables doc', w.nrows ≤ u.nrows)) := by
  constructor
  · rcases horder with rfl | rfl <;>
      simp [scrape_fbref_table, parse_tables, pick_largest, ht, hd]
  · intro doc' u hu
    simp only [scrape_fbref_table] at hu
    by_cases hemp : (parse_tables doc').isEmpty = true
    · rw [if_pos hemp] at hu
      cases hu
    · rw [if_neg hemp] at hu
      constructor
      · intro hcand
        have hcandemp : ¬(((parse_tables doc').filter is_player_table).isEmpty = true) := by
          simpa [List.isEmpty_iff] using hcand
        rw [if_neg hcandemp] at hu
        obtain ⟨hmem, hbound⟩ := pick_largest_spec _ u hu
        exact ⟨(List.mem_filter.mp hmem).2, (List.mem_filter.mp hmem).1, hbound⟩
      · intro hcand
        have hcandemp : ((parse_tables doc').filter is_player_table).isEmpty = true := by
          simp [List.isEmpty_iff, hcand]
        rw [if_pos hcandemp] at hu
        exact pick_largest_spec _ u hu

/-- C3 witness: the amended theorem at a tightly wrapped commented table
with identity columns and a visible decoy. -/
theorem C3_witness :
    scrape_fbref_table
        [Seg.com "" ⟨["player", "gls"], 5⟩ "", Seg.vis ⟨["foo"], 3⟩] =
      some ⟨["player", "gls"], 5⟩ ∧
    (∀ doc' u, scrape_fbref_table doc' = some u →
      ((parse_tables doc').filter is_player_table ≠ [] →
        is_player_table u = true ∧ u ∈ parse_tables doc' ∧
        ∀ w ∈ (parse_tables doc').filter is_player_table, w.nrows ≤ u.nrows) ∧
      ((parse_tables doc').filter is_player_table = [] →
        u ∈ parse_tables doc' ∧ ∀ w ∈ parse_tables doc', w.nrows ≤ u.nrows)) :=
  C3_locator
    [Seg.com "" ⟨["player", "gls"], 5⟩ "", Seg.vis ⟨["foo"], 3⟩]
    ⟨["player", "gls"], 5⟩ ⟨["foo"], 3⟩
    (Or.inl rfl) (by decide) (by decide)

/-! ### Claim C5 -/

/-- C5: the per-90 rate is `(total / minutes) * 90` — in particular
`total = 9, minutes = 810` gives exactly `1.0` (this product is also exact
in IEEE doubles) — the combined rate `xGI_per90` is the sum of the `xG`
and `xA` per-90 rates, and zero minutes yield a non-finite float sentinel
(infinity or NaN, per numpy division), never an exception. -/
theorem pfloat_div_zero_nonfinite (q : ℚ) :
    PFloat.isFinite ((PFloat.fin q).div (.fin 0)) = false := by
  simp only [PFloat.div]
  rw [if_neg (by simp)]
  split_ifs <;> rfl

theorem pfloat_mul90_nonfinite (x : PFloat) (h : x.isFinite = false) :
    PFloat.isFinite (x.mul (.fin 90)) = false := by
  cases x with
  | fin q => exact absurd h (by simp [PFloat.isFinite])
  | inf =>
    simp only [PFloat.mul]
    rw [if_pos (by norm_num)]
    rfl
  | ninf =>
    simp only [PFloat.mul]
    rw [if_pos (by norm_num)]
    rfl
  | nan => rfl

theorem pfloat_add_nonfinite (x y : PFloat) (hx : x.isFinite = false)
    (hy : y.isFinite = false) : PFloat.isFinite (x.add y) = false := by
  cases x <;> cases y <;> simp_all [PFloat.add, PFloat.isFinite]

theorem C5_per90_rates (t m g a q : ℚ) (hm : m ≠ 0) :
    per90 (.fin 9) (.fin 810) = .fin 1 ∧
    per90 (.fin t) (.fin m) = .fin (t / m * 90) ∧
    player_rates ⟨.fin g, .fin a, .fin m⟩ =
      (.fin (g / m * 90), .fin (a / m * 90), .fin (g / m * 90 + a / m * 90)) ∧
    PFloat.isFinite (per90 (.fin q) (.fin 0)) = false ∧
    PFloat.isFinite (player_rates ⟨.fin g, .fin a, .fin 0⟩).2.2 = false := by
  refine ⟨?_, ?_, ?_, ?_, ?_⟩
  · have h810 : (810 : ℚ) ≠ 0 := by norm_num
    simp only [per90, PFloat.div, PFloat.mul, if_pos h810, PFloat.fin.injEq]
    norm_num
  · simp [per90, PFloat.div, PFloat.mul, hm]
  · simp [player_rates, PFloat.div, PFloat.mul, PFloat.add, hm]
  · exact pfloat_mul90_nonfinite _ (pfloat_div_zero_nonfinite q)
  · exact pfloat_add_nonfinite _ _
      (pfloat_mul90_nonfinite _ (pfloat_div_zero_nonfinite g))
      (pfloat_mul90_nonfinite _ (pfloat_div_zero_nonfinite a))

theorem length_filter_or_disjoint {α : Type} (l : List α) (p q : α → Bool)
    (h : ∀ a ∈ l, p a = true → q a = false) :
    (l.filter (fun a => p a || q a)).length = (l.filter p).length + (l.filter q).length := by
  induction l with
  | nil => simp
  | cons a t ih =>
    have iht := ih (fun b hb => h b (List.mem_cons_of_mem a hb))
    cases hp : p a with
    | true =>
      have hq : q a = false := h a (List.mem_cons_self a t) hp
      simp only [List.filter_cons, hp, hq, Bool.true_or, if_true, Bool.false_eq_true,
        if_false, List.length_cons]
      omega
    | false =>
      cases hq : q a with
      | true =>
        simp only [List.filter_cons, hp, hq, Bool.false_or, if_true, Bool.false_eq_true,
          if_false, List.length_cons]
        omega
      | false =>
        simp only [List.filter_cons, hp, hq, Bool.false_or, Bool.false_eq_true, if_false]
        omega

theorem sum_map_filter_int {α : Type} (l : List α) (p : α → Bool) (f : α → ℤ) :
    ((l.filter p).map f).sum = (l.map (fun a => if p a then f a else 0)).sum := by
  induction l with
  | nil => simp
  | cons a t ih =>
    cases hp : p a <;> simp [List.filter_cons, hp, ih]

theorem sum_map_add_int {α : Type} (l : List α) (f g : α → ℤ) :
    (l.map f).sum + (l.map g).sum = (l.map (fun a => f a + g a)).sum := by
  induction l with
  | nil => simp
  | cons a t ih =>
    simp only [List.map_cons, List.sum_cons]
    rw [← ih]
    ring

theorem spec_outcome_win_eq (team : String) (m : MatchRow)
    (hne : m.homeTeam ≠ m.awayTeam) :
    ((m.ftr == "H" && m.homeTeam == team) || (m.ftr == "A" && m.awayTeam == team)) =
      (spec_outcome_for team m == some .win) := by
  simp only [spec_outcome_for]
  by_cases hh : m.homeTeam = team
  · have hna : m.awayTeam ≠ team := fun he => hne (hh.trans he.symm)
    by_cases h1 : m.ftr = "H"
    · simp [hh, hna, h1]
    · by_cases h2 : m.ftr = "D"
      · simp [hh, hna, h1, h2]
      · by_cases h3 : m.ftr = "A"
        · simp [hh, hna, h1, h2, h3]
        · simp [hh, hna, h1, h2, h3]
  · by_cases ha : m.awayTeam = team
    · by_cases h1 : m.ftr = "A"
      · simp [hh, ha, h1]
      · by_cases h2 : m.ftr = "D"
        · simp [hh, ha, h1, h2]
        · by_cases h3 : m.ftr = "H"
          · simp [hh, ha, h1, h2, h3]
          · simp [hh, ha, h1, h2, h3]
    · simp [hh, ha]

theorem spec_outcome_draw_eq (team : String) (m : MatchRow)
    (hne : m.homeTeam ≠ m.awayTeam) :
    ((m.ftr == "D" && m.homeTeam == team) || (m.ftr == "D" && m.awayTeam == team)) =
      (spec_outcome_for team m == some .draw) := by
  simp only [spec_outcome_for]
  by_cases hh : m.homeTeam = team
  · have hna : m.awayTeam ≠ team := fun he => hne (hh.trans he.symm)
    by_cases h1 : m.ftr = "H"
    · simp [hh, hna, h1]
    · by_cases h2 : m.ftr = "D"
      · simp [hh, hna, h1, h2]
      · by_cases h3 : m.ftr = "A"
        · simp [hh, hna, h1, h2, h3]
        · simp [hh, hna, h1, h2, h3]
  · by_cases ha : m.awayTeam = team
    · by_cases h1 : m.ftr = "A"
      · simp [hh, ha, h1]
      · by_cases h2 : m.ftr = "D"
        · simp [hh, ha, h1, h2]
        · by_cases h3 : m.ftr = "H"
          · simp [hh, ha, h1, h2, h3]
          · simp [hh, ha, h1, h2, h3]
    · simp [hh, ha]

theorem spec_outcome_loss_eq (team : String) (m : MatchRow)
    (hne : m.homeTeam ≠ m.awayTeam) :
    ((m.ftr == "A" && m.homeTeam == team) || (m.ftr == "H" && m.awayTeam == team)) =
      (spec_outcome_for team m == some .loss) := by
  simp only [spec_outcome_for]
  by_cases hh : m.homeTeam = team
  · have hna : m.awayTeam ≠ team := fun he => hne (hh.trans he.symm)
    by_cases h1 : m.ftr = "H"
    · simp [hh, hna, h1]
    · by_cases h2 : m.ftr = "D"
      · simp [hh, hna, h1, h2]
      · by_cases h3 : m.ftr = "A"
        · simp [hh, hna, h1, h2, h3]
        · simp [hh, hna, h1, h2, h3]
  · by_cases ha : m.awayTeam = team
    · by_cases h1 : m.ftr = "A"
      · simp [hh, ha, h1]
      · by_cases h2 : m.ftr = "D"
        · simp [hh, ha, h1, h2]
        · by_cases h3 : m.ftr = "H"
          · simp [hh, ha, h1, h2, h3]
          · simp [hh, ha, h1, h2, h3]
    · simp [hh, ha]

theorem roles_count (df : List MatchRow) (team : String)
    (hdist : ∀ m ∈ df, m.homeTeam ≠ m.awayTeam)
    (x : Outcome) (tagH tagA : String)
    (hpt : ∀ m ∈ df,
      ((m.ftr == tagH && m.homeTeam == team) || (m.ftr == tagA && m.awayTeam == team)) =
        (spec_outcome_for team m == some x)) :
    ((df.filter (fun m => m.homeTeam == team)).filter (fun m => m.ftr == tagH)).length +
      ((df.filter (fun m => m.awayTeam == team)).filter (fun m => m.ftr == tagA)).length =
      (df.filter (fun m => spec_outcome_for team m == some x)).length := by
  rw [List.filter_filter, List.filter_filter]
  rw [← List.filter_congr hpt]
  rw [length_filter_or_disjoint]
  intro m hm h1
  have hhome : m.homeTeam = team := by
    have h1' := h1
    simp only [Bool.and_eq_true, beq_iff_eq] at h1'
    exact h1'.2
  have hna : m.awayTeam ≠ team := fun he => hdist m hm (hhome.trans he.symm)
  simp [hna]

/-- C6: the standings aggregation buckets each match by role and result
tag exactly as the claim describes (via `spec_outcome_for`, stated from
the claim), sums goals for/against across both roles, computes
`points = 3*wins + draws`, and on the two concrete matches — Team A home
win 2–0 over Team B, Team B away draw 1–1 at Team C — Team A's record is
1 win, 0 draws, 0 losses, 2 goals for, 0 against, 3 points. -/
theorem C6_standings_aggregation (df : List MatchRow) (team : String)
    (hdist : ∀ m ∈ df, m.homeTeam ≠ m.awayTeam) :
    (team_stats_for df team).W =
      (df.filter (fun m => spec_outcome_for team m == some .win)).length ∧
    (team_stats_for df team).D =
      (df.filter (fun m => spec_outcome_for team m == some .draw)).length ∧
    (team_stats_for df team).L =
      (df.filter (fun m => spec_outcome_for team m == some .loss)).length ∧
    (team_stats_for df team).GF = (df.map (spec_goals_for team)).sum ∧
    (team_stats_for df team).GA = (df.map (spec_goals_against team)).sum ∧
    (team_stats_for df team).Pts =
      3 * (team_stats_for df team).W + (team_stats_for df team).D ∧
    team_stats_for
        [⟨"Team A", "Team B", 2, 0, "H"⟩, ⟨"Team C", "Team B", 1, 1, "D"⟩]
        "Team A" =
      ⟨"Team A", 1, 1, 0, 0, 2, 0, 2, 3⟩ := by
  refine ⟨?_, ?_, ?_, ?_, ?_, ?_, by decide⟩
  · exact roles_count df team hdist .win "H" "A"
      (fun m hm => spec_outcome_win_eq team m (hdist m hm))
  · exact roles_count df team hdist .draw "D" "D"
      (fun m hm => spec_outcome_draw_eq team m (hdist m hm))
  · exact roles_count df team hdist .loss "A" "H"
      (fun m hm => spec_outcome_loss_eq team m (hdist m hm))
  · show ((df.filter (fun m => m.homeTeam == team)).map (fun m => m.fthg)).sum +
        ((df.filter (fun m => m.awayTeam == team)).map (fun m => m.ftag)).sum =
        (df.map (spec_goals_for team)).sum
    rw [sum_map_filter_int, sum_map_filter_int, sum_map_add_int]
    apply congrArg List.sum
    apply List.map_congr_left
    intro m hm
    by_cases hh : m.homeTeam = team
    · have hna : m.awayTeam ≠ team := fun he => hdist m hm (hh.trans he.symm)
      simp [spec_goals_for, hh, hna]
    · by_cases ha : m.awayTeam = team
      · simp [spec_goals_for, hh, ha]
      · simp [spec_goals_for, hh, ha]
  · show ((df.filter (fun m => m.homeTeam == team)).map (fun m => m.ftag)).sum +
        ((df.filter (fun m => m.awayTeam == team)).map (fun m => m.fthg)).sum =
        (df.map (spec_goals_against team)).sum
    rw [sum_map_filter_int, sum_map_filter_int, sum_map_add_int]
    apply congrArg List.sum
    apply List.map_congr_left
    intro m hm
    by_cases hh : m.homeTeam = team
    · have hna : m.awayTeam ≠ team := fun he => hdist m hm (hh.trans he.symm)
      simp [spec_goals_against, hh, hna]
    · by_cases ha : m.awayTeam = team
      · simp [spec_goals_against, hh, ha]
      · simp [spec_goals_against, hh, ha]
  · simp only [team_stats_for]
    omega

/-- C6 witness: the aggregation theorem at the claim's two concrete
matches, for Team A. -/
theorem C6_witness :
    (team_stats_for
        [⟨"Team A", "Team B", 2, 0, "H"⟩, ⟨"Team C", "Team B", 1, 1, "D"⟩]
        "Team A").W =
      (([⟨"Team A", "Team B", 2, 0, "H"⟩,
         ⟨"Team C", "Team B", 1, 1, "D"⟩] : List MatchRow).filter
          (fun m => spec_outcome_for "Team A" m == some .win)).length ∧
    (team_stats_for
        [⟨"Team A", "Team B", 2, 0, "H"⟩, ⟨"Team C", "Team B", 1, 1, "D"⟩]
        "Team A").D =
      (([⟨"Team A", "Team B", 2, 0, "H"⟩,
         ⟨"Team C", "Team B", 1, 1, "D"⟩] : List MatchRow).filter
          (fun m => spec_outcome_for "Team A" m == some .draw)).length ∧
    (team_stats_for
        [⟨"Team A", "Team B", 2, 0, "H"⟩, ⟨"Team C", "Team B", 1, 1, "D"⟩]
        "Team A").L =
      (([⟨"Team A", "Team B", 2, 0, "H"⟩,
         ⟨"Team C", "Team B", 1, 1, "D"⟩] : List MatchRow).filter
          (fun m => spec_outcome_for "Team A" m == some .loss)).length ∧
    (team_stats_for
        [⟨"Team A", "Team B", 2, 0, "H"⟩, ⟨"Team C", "Team B", 1, 1, "D"⟩]
        "Team A").GF =
      (([⟨"Team A", "Team B", 2, 0, "H"⟩,
         ⟨"Team C", "Team B", 1, 1, "D"⟩] : List MatchRow).map
          (spec_goals_for "Team A")).sum ∧
    (team_stats_for
        [⟨"Team A", "Team B", 2, 0, "H"⟩, ⟨"Team C", "Team B", 1, 1, "D"⟩]
        "Team A").GA =
      (([⟨"Team A", "Team B", 2, 0, "H"⟩,
         ⟨"Team C", "Team B", 1, 1, "D"⟩] : List MatchRow).map
          (spec_goals_against "Team A")).sum ∧
    (team_stats_for
        [⟨"Team A", "Team B", 2, 0, "H"⟩, ⟨"Team C", "Team B", 1, 1, "D"⟩]
        "Team A").Pts =
      3 * (team_stats_for
          [⟨"Team A", "Team B", 2, 0, "H"⟩, ⟨"Team C", "Team B", 1, 1, "D"⟩]
          "Team A").W +
        (team_stats_for
          [⟨"Team A", "Team B", 2, 0, "H"⟩, ⟨"Team C", "Team B", 1, 1, "D"⟩]
          "Team A").D ∧
    team_stats_for
        [⟨"Team A", "Team B", 2, 0, "H"⟩, ⟨"Team C", "Team B", 1, 1, "D"⟩]
        "Team A" =
      ⟨"Team A", 1, 1, 0, 0, 2, 0, 2, 3⟩ :=
  C6_standings_aggregation
    [⟨"Team A", "Team B", 2, 0, "H"⟩, ⟨"Team C", "Team B", 1, 1, "D"⟩]
    "Team A" (by decide)

/-- C5 witness: the per-90 theorem at `total = 9`, `minutes = 810`,
`xG = 2`, `xA = 3`, `q = 1`. -/
theorem C5_witness :
    per90 (.fin 9) (.fin 810) = .fin 1 ∧
    per90 (.fin 9) (.fin 810) = .fin (9 / 810 * 90) ∧
    player_rates ⟨.fin 2, .fin 3, .fin 810⟩ =
      (.fin (2 / 810 * 90), .fin (3 / 810 * 90),
        .fin (2 / 810 * 90 + 3 / 810 * 90)) ∧
    PFloat.isFinite (per90 (.fin 1) (.fin 0)) = false ∧
    PFloat.isFinite (player_rates ⟨.fin 2, .fin 3, .fin 0⟩).2.2 = false :=
  C5_per90_rates 9 810 2 3 1 (by norm_num)

/-! ### Claim C7 -/

theorem merge_left_spec (base other : CsvFrame) (key : String)
    (hrect : ∀ r ∈ base.rows, r.length = base.cols.length) :
    (merge_left base other key).cols.take base.cols.length = base.cols ∧
    (merge_left base other key).cols.drop base.cols.length =
      other.cols.filter (fun c => c != key) ∧
    (∀ r ∈ base.rows, ∃ r' ∈ (merge_left base other key).rows,
      r'.take base.cols.length = r) ∧
    (∀ r' ∈ (merge_left base other key).rows,
      r'.take base.cols.length ∈ base.rows) := by
  refine ⟨List.take_left .., List.drop_left .., ?_, ?_⟩
  · intro r hr
    by_cases hms : (other.rows.filter
        (fun s => cell other.cols s key == cell base.cols r key)).isEmpty = true
    · refine ⟨r ++ (other.cols.filter (fun c => c != key)).map (fun _ => Value.null),
        ?_, ?_⟩
      · apply List.mem_flatMap.mpr
        refine ⟨r, hr, ?_⟩
        rw [if_pos hms]
        simp
      · rw [← hrect r hr]
        exact List.take_left ..
    · rcases hlist : (other.rows.filter
          (fun s => cell other.cols s key == cell base.cols r key)) with _ | ⟨s, tl⟩
      · rw [hlist] at hms
        simp at hms
      · refine ⟨r ++ (other.cols.filter (fun c => c != key)).map
            (fun c => cell other.cols s c), ?_, ?_⟩
        · apply List.mem_flatMap.mpr
          refine ⟨r, hr, ?_⟩
          rw [if_neg hms, hlist]
          exact List.mem_map_of_mem _ (List.mem_cons_self s tl)
        · rw [← hrect r hr]
          exact List.take_left ..
  · intro r' hr'
    simp only [merge_left] at hr'
    obtain ⟨r, hr, hmem⟩ := List.mem_flatMap.mp hr'
    by_cases hms : (other.rows.filter
        (fun s => cell other.cols s key == cell base.cols r key)).isEmpty = true
    · rw [if_pos hms] at hmem
      have heq : r' = r ++ (other.cols.filter (fun c => c != key)).map
          (fun _ => Value.null) := by
        simpa using hmem
      rw [heq, ← hrect r hr, List.take_left]
      exact hr
    · rw [if_neg hms] at hmem
      obtain ⟨s, hs, rfl⟩ := List.mem_map.mp hmem
      rw [← hrect r hr, List.take_left]
      exact hr

/-- C7: a merge of an overlay record set into a base set keeps the base
column block intact (the first `base.cols.length` columns of the result are
the base columns, and every added column name is absent from the base),
keeps every base record (its base-column cells unchanged), produces only
rows whose base-column block is a base record, and on the claim's concrete
input — base Smith with goals = 5, overlay Smith with assists = 3 and
goals = 99 — yields goals = 5 and assists = 3. -/
theorem C7_merge_no_overwrite (base df : CsvFrame) (key : String)
    (hrect : ∀ r ∈ base.rows, r.length = base.cols.length) :
    (merge_step base df key).cols.take base.cols.length = base.cols ∧
    (∀ c ∈ (merge_step base df key).cols.drop base.cols.length, c ∉ base.cols) ∧
    (∀ r ∈ base.rows, ∃ r' ∈ (merge_step base df key).rows,
      r'.take base.cols.length = r) ∧
    (∀ r' ∈ (merge_step base df key).rows, r'.take base.cols.length ∈ base.rows) ∧
    merge_step ⟨["Player", "goals"], [[Value.str "Smith", Value.num 5]]⟩
        ⟨["Player", "assists", "goals"],
         [[Value.str "Smith", Value.num 3, Value.num 99]]⟩ "Player" =
      ⟨["Player", "goals", "assists"],
       [[Value.str "Smith", Value.num 5, Value.num 3]]⟩ := by
  simp only [merge_step]
  by_cases hlen :
      (df.cols.filter (fun c => !(base.cols.contains c) || c == key)).length > 1
  · rw [if_pos hlen]
    obtain ⟨h1, h2, h3, h4⟩ := merge_left_spec base
      (select df (df.cols.filter (fun c => !(base.cols.contains c) || c == key)))
      key hrect
    refine ⟨h1, ?_, h3, h4, by decide⟩
    intro c hc
    rw [h2] at hc
    have hc1 := List.mem_filter.mp hc
    have hkey : (c == key) = false := by
      have hne := hc1.2
      simp only [bne_iff_ne, ne_eq] at hne
      simp [hne]
    have hc2 := List.mem_filter.mp hc1.1
    have hp := hc2.2
    rw [hkey] at hp
    intro hmem
    simp [hmem] at hp
  · rw [if_neg hlen]
    refine ⟨by simp, by simp, ?_, ?_, by decide⟩
    · intro r hr
      refine ⟨r, hr, ?_⟩
      rw [← hrect r hr]
      exact List.take_length r
    · intro r' hr'
      rw [← hrect r' hr', List.take_length]
      exact hr'

/-- C7 witness: the merge theorem at the claim's Smith example. -/
theorem C7_witness :
    (merge_step ⟨["Player", "goals"], [[Value.str "Smith", Value.num 5]]⟩
        ⟨["Player", "assists", "goals"],
         [[Value.str "Smith", Value.num 3, Value.num 99]]⟩ "Player").cols.take
        (["Player", "goals"] : List String).length = ["Player", "goals"] ∧
    (∀ c ∈ (merge_step ⟨["Player", "goals"], [[Value.str "Smith", Value.num 5]]⟩
        ⟨["Player", "assists", "goals"],
         [[Value.str "Smith", Value.num 3, Value.num 99]]⟩ "Player").cols.drop
        (["Player", "goals"] : List String).length,
      c ∉ (["Player", "goals"] : List String)) ∧
    (∀ r ∈ ([[Value.str "Smith", Value.num 5]] : List (List Value)),
      ∃ r' ∈ (merge_step ⟨["Player", "goals"], [[Value.str "Smith", Value.num 5]]⟩
        ⟨["Player", "assists", "goals"],
         [[Value.str "Smith", Value.num 3, Value.num 99]]⟩ "Player").rows,
        r'.take (["Player", "goals"] : List String).length = r) ∧
    (∀ r' ∈ (merge_step ⟨["Player", "goals"], [[Value.str "Smith", Value.num 5]]⟩
        ⟨["Player", "assists", "goals"],
         [[Value.str "Smith", Value.num 3, Value.num 99]]⟩ "Player").rows,
      r'.take (["Player", "goals"] : List String).length ∈
        ([[Value.str "Smith", Value.num 5]] : List (List Value))) ∧
    merge_step ⟨["Player", "goals"], [[Value.str "Smith", Value.num 5]]⟩
        ⟨["Player", "assists", "goals"],
         [[Value.str "Smith", Value.num 3, Value.num 99]]⟩ "Player" =
      ⟨["Player", "goals", "assists"],
       [[Value.str "Smith", Value.num 5, Value.num 3]]⟩ :=
  C7_merge_no_overwrite
    ⟨["Player", "goals"], [[Value.str "Smith", Value.num 5]]⟩
    ⟨["Player", "assists", "goals"],
     [[Value.str "Smith", Value.num 3, Value.num 99]]⟩ "Player" (by decide)

/-! ### Claim C8 -/

/-- C8: the Orchestrator runs the three pipelines in fixed order whatever
happens earlier; with the first and third completing with return code 0 and
the second failing by timeout or exception, the third pipeline's result is
still recorded (as a success) and the summary reports exactly 2 successes
out of 3. -/
theorem C8_orchestrator (o2 : RunOutcome)
    (h : o2 = .timedOut ∨ ∃ msg, o2 = .raised msg) :
    (refresh_main (.completed 0) o2 (.completed 0)).1 =
      [("fbref", true), ("understat", false), ("fpl", true)] ∧
    (refresh_main (.completed 0) o2 (.completed 0)).1[2]? = some ("fpl", true) ∧
    (refresh_main (.completed 0) o2 (.completed 0)).2.1 = 2 ∧
    (refresh_main (.completed 0) o2 (.completed 0)).2.2 = 3 := by
  rcases h with rfl | ⟨msg, rfl⟩ <;> exact ⟨rfl, rfl, rfl, rfl⟩

/-- C8 witness: the orchestrator theorem with the second pipeline timing
out. -/
theorem C8_witness :
    (refresh_main (.completed 0) .timedOut (.completed 0)).1 =
      [("fbref", true), ("understat", false), ("fpl", true)] ∧
    (refresh_main (.completed 0) .timedOut (.completed 0)).1[2]? =
      some ("fpl", true) ∧
    (refresh_main (.completed 0) .timedOut (.completed 0)).2.1 = 2 ∧
    (refresh_main (.completed 0) .timedOut (.completed 0)).2.2 = 3 :=
  C8_orchestrator .timedOut (Or.inl rfl)

/-! ### Claim C9 -/

theorem coerce_row_cons (c : String) (cs : List String) (v : Value) (vs : List Value) :
    coerce_row (c :: cs) (v :: vs) =
      (if c ∈ identity_cols then v else to_numeric v) :: coerce_row cs vs := rfl

theorem coerce_row_idem (cols : List String) (r : List Value) :
    coerce_row cols (coerce_row cols r) = coerce_row cols r := by
  induction cols generalizing r with
  | nil => simp [coerce_row]
  | cons c cs ih =>
    cases r with
    | nil => simp [coerce_row]
    | cons v vs =>
      rw [coerce_row_cons, coerce_row_cons]
      by_cases hc : c ∈ identity_cols
      · simp only [if_pos hc, ih]
      · simp only [if_neg hc, to_numeric_idem, ih]

theorem coerce_row_head_ne (c0 : String) (cols : List String) (r : List Value)
    (h : (r.head? != some (Value.str c0)) = true) :
    ((coerce_row (c0 :: cols) r).head? != some (Value.str c0)) = true := by
  cases r with
  | nil => simp [coerce_row]
  | cons v vs =>
    rw [coerce_row_cons]
    simp only [List.head?_cons, bne_iff_ne, ne_eq, Option.some.injEq] at h ⊢
    by_cases hc : c0 ∈ identity_cols
    · rw [if_pos hc]
      exact h
    · rw [if_neg hc]
      exact to_numeric_ne_str v c0

/-- C9: the Record Normalizer is idempotent — cleaning an already-cleaned
frame returns it unchanged (in particular the flattened column names do not
change under renormalization, so flattening twice equals flattening
once). -/
theorem C9_clean_idempotent (f g : Frame) (h : clean_fbref_dataframe f = some g) :
    clean_fbref_dataframe g = some g ∧ flat_cols g = flat_cols f := by
  rcases hcs : flat_cols f with _ | ⟨c0, rest⟩
  · rw [clean_fbref_dataframe.eq_def, hcs] at h
    cases h
  · have hg := clean_some f g h c0 rest hcs
    subst hg
    refine ⟨?_, by simp [flat_cols, hcs]⟩
    rw [clean_fbref_dataframe.eq_def]
    dsimp only [flat_cols]
    have hdrop : drop_header_rows c0
        ((drop_header_rows c0 f.rows).map (coerce_row (c0 :: rest))) =
        (drop_header_rows c0 f.rows).map (coerce_row (c0 :: rest)) := by
      apply List.filter_eq_self.mpr
      intro r hr
      obtain ⟨r0, hr0, rfl⟩ := List.mem_map.mp hr
      have hr0' : (r0.head? != some (Value.str c0)) = true := by
        simp only [drop_header_rows] at hr0
        exact (List.mem_filter.mp hr0).2
      exact coerce_row_head_ne c0 rest r0 hr0'
    rw [hdrop, List.map_map]
    have hmapidem : ((drop_header_rows c0 f.rows).map (coerce_row (c0 :: rest))).map
        (coerce_row (c0 :: rest)) =
        (drop_header_rows c0 f.rows).map (coerce_row (c0 :: rest)) := by
      rw [List.map_map]
      apply List.map_congr_left
      intro r _
      exact coerce_row_idem (c0 :: rest) r
    rw [List.map_map] at hmapidem
    rw [hmapidem]

/-- C9 witness: idempotence at a concrete frame with a repeated header row
and a numeric string (`clean` drops the duplicate and coerces `"10"`). -/
theorem C9_witness :
    clean_fbref_dataframe
        { header := .flat ["Squad", "Gls"]
          rows := [[Value.str "Arsenal", Value.num 10]] } =
      some { header := .flat ["Squad", "Gls"]
             rows := [[Value.str "Arsenal", Value.num 10]] } ∧
    flat_cols { header := .flat ["Squad", "Gls"]
                rows := [[Value.str "Arsenal", Value.num 10]] } =
      flat_cols { header := Header.flat ["Squad", "Gls"]
                  rows := [[Value.str "Squad", Value.str "Gls"],
                           [Value.str "Arsenal", Value.str "10"]] } :=
  C9_clean_idempotent
    { header := .flat ["Squad", "Gls"]
      rows := [[Value.str "Squad", Value.str "Gls"],
               [Value.str "Arsenal", Value.str "10"]] }
    { header := .flat ["Squad", "Gls"]
      rows := [[Value.str "Arsenal", Value.num 10]] }
    (by decide)

/-! ### Claim C10 -/

theorem length_eq_three_filters {α : Type} (l : List α) (p q r : α → Bool)
    (h : ∀ a ∈ l, (p a = true ∧ q a = false ∧ r a = false) ∨
                  (p a = false ∧ q a = true ∧ r a = false) ∨
                  (p a = false ∧ q a = false ∧ r a = true)) :
    l.length = (l.filter p).length + (l.filter q).length + (l.filter r).length := by
  induction l with
  | nil => simp
  | cons a t ih =>
    have iht := ih (fun b hb => h b (List.mem_cons_of_mem a hb))
    rcases h a (List.mem_cons_self a t) with ⟨h1, h2, h3⟩ | ⟨h1, h2, h3⟩ | ⟨h1, h2, h3⟩ <;>
      simp only [List.filter_cons, h1, h2, h3, if_true, Bool.false_eq_true, if_false,
        List.length_cons] <;>
      omega

/-- C10: under the precondition that every input match carries a result tag
in the recognized set, both aggregators' team records satisfy
`played = wins + draws + losses`, `goal difference = goals for − goals
against`, and `points = 3 × wins + draws`. -/
theorem C10_aggregate_invariants (history : List UMatch) (name : String)
    (hres : ∀ m ∈ history, m.result = "w" ∨ m.result = "d" ∨ m.result = "l")
    (df : List MatchRow) (team : String)
    (hftr : ∀ m ∈ df, m.ftr = "H" ∨ m.ftr = "D" ∨ m.ftr = "A") :
    (scrape_league_teams_row name history).played =
      (scrape_league_teams_row name history).wins +
        (scrape_league_teams_row name history).draws +
        (scrape_league_teams_row name history).losses ∧
    (scrape_league_teams_row name history).goal_diff =
      (scrape_league_teams_row name history).goals_for -
        (scrape_league_teams_row name history).goals_against ∧
    (scrape_league_teams_row name history).points =
      3 * (scrape_league_teams_row name history).wins +
        (scrape_league_teams_row name history).draws ∧
    (team_stats_for df team).P =
      (team_stats_for df team).W + (team_stats_for df team).D +
        (team_stats_for df team).L ∧
    (team_stats_for df team).GD =
      (team_stats_for df team).GF - (team_stats_for df team).GA ∧
    (team_stats_for df team).Pts =
      3 * (team_stats_for df team).W + (team_stats_for df team).D := by
  have hu : history.length =
      (history.filter (fun m => m.result == "w")).length +
        (history.filter (fun m => m.result == "d")).length +
        (history.filter (fun m => m.result == "l")).length := by
    apply length_eq_three_filters
    intro m hm
    rcases hres m hm with hw | hd | hl
    · left
      rw [hw]
      refine ⟨by decide, by decide, by decide⟩
    · right; left
      rw [hd]
      refine ⟨by decide, by decide, by decide⟩
    · right; right
      rw [hl]
      refine ⟨by decide, by decide, by decide⟩
  have hhome : ∀ m ∈ df.filter (fun m => m.homeTeam == team),
      m.ftr = "H" ∨ m.ftr = "D" ∨ m.ftr = "A" :=
    fun m hm => hftr m (List.mem_of_mem_filter hm)
  have haway : ∀ m ∈ df.filter (fun m => m.awayTeam == team),
      m.ftr = "H" ∨ m.ftr = "D" ∨ m.ftr = "A" :=
    fun m hm => hftr m (List.mem_of_mem_filter hm)
  have hh : (df.filter (fun m => m.homeTeam == team)).length =
      ((df.filter (fun m => m.homeTeam == team)).filter
          (fun m => m.ftr == "H")).length +
        ((df.filter (fun m => m.homeTeam == team)).filter
          (fun m => m.ftr == "D")).length +
        ((df.filter (fun m => m.homeTeam == team)).filter
          (fun m => m.ftr == "A")).length := by
    apply length_eq_three_filters
    intro m hm
    rcases hhome m hm with h1 | h1 | h1 <;> rw [h1]
    · exact Or.inl ⟨by decide, by decide, by decide⟩
    · exact Or.inr (Or.inl ⟨by decide, by decide, by decide⟩)
    · exact Or.inr (Or.inr ⟨by decide, by decide, by decide⟩)
  have ha : (df.filter (fun m => m.awayTeam == team)).length =
      ((df.filter (fun m => m.awayTeam == team)).filter
          (fun m => m.ftr == "H")).length +
        ((df.filter (fun m => m.awayTeam == team)).filter
          (fun m => m.ftr == "D")).length +
        ((df.filter (fun m => m.awayTeam == team)).filter
          (fun m => m.ftr == "A")).length := by
    apply length_eq_three_filters
    intro m hm
    rcases haway m hm with h1 | h1 | h1 <;> rw [h1]
    · exact Or.inl ⟨by decide, by decide, by decide⟩
    · exact Or.inr (Or.inl ⟨by decide, by decide, by decide⟩)
    · exact Or.inr (Or.inr ⟨by decide, by decide, by decide⟩)
  refine ⟨?_, rfl, ?_, ?_, rfl, ?_⟩
  · simp only [scrape_league_teams_row]
    exact hu
  · simp only [scrape_league_teams_row]
    omega
  · simp only [team_stats_for]
    omega
  · simp only [team_stats_for]
    omega

/-- C10 witness: the invariants at a one-match Understat history and the
two-match football-data set. -/
theorem C10_witness :
    (scrape_league_teams_row "X" [⟨3 / 2, 1, 2, 1, "w"⟩]).played =
      (scrape_league_teams_row "X" [⟨3 / 2, 1, 2, 1, "w"⟩]).wins +
        (scrape_league_teams_row "X" [⟨3 / 2, 1, 2, 1, "w"⟩]).draws +
        (scrape_league_teams_row "X" [⟨3 / 2, 1, 2, 1, "w"⟩]).losses ∧
    (scrape_league_teams_row "X" [⟨3 / 2, 1, 2, 1, "w"⟩]).goal_diff =
      (scrape_league_teams_row "X" [⟨3 / 2, 1, 2, 1, "w"⟩]).goals_for -
        (scrape_league_teams_row "X" [⟨3 / 2, 1, 2, 1, "w"⟩]).goals_against ∧
    (scrape_league_teams_row "X" [⟨3 / 2, 1, 2, 1, "w"⟩]).points =
      3 * (scrape_league_teams_row "X" [⟨3 / 2, 1, 2, 1, "w"⟩]).wins +
        (scrape_league_teams_row "X" [⟨3 / 2, 1, 2, 1, "w"⟩]).draws ∧
    (team_stats_for
        [⟨"Team A", "Team B", 2, 0, "H"⟩, ⟨"Team C", "Team B", 1, 1, "D"⟩]
        "Team B").P =
      (team_stats_for
          [⟨"Team A", "Team B", 2, 0, "H"⟩, ⟨"Team C", "Team B", 1, 1, "D"⟩]
          "Team B").W +
        (team_stats_for
          [⟨"Team A", "Team B", 2, 0, "H"⟩, ⟨"Team C", "Team B", 1, 1, "D"⟩]
          "Team B").D +
        (team_stats_for
          [⟨"Team A", "Team B", 2, 0, "H"⟩, ⟨"Team C", "Team B", 1, 1, "D"⟩]
          "Team B").L ∧
    (team_stats_for
        [⟨"Team A", "Team B", 2, 0, "H"⟩, ⟨"Team C", "Team B", 1, 1, "D"⟩]
        "Team B").GD =
      (team_stats_for
          [⟨"Team A", "Team B", 2, 0, "H"⟩, ⟨"Team C", "Team B", 1, 1, "D"⟩]
          "Team B").GF -
        (team_stats_for
          [⟨"Team A", "Team B", 2, 0, "H"⟩, ⟨"Team C", "Team B", 1, 1, "D"⟩]
          "Team B").GA ∧
    (team_stats_for
        [⟨"Team A", "Team B", 2, 0, "H"⟩, ⟨"Team C", "Team B", 1, 1, "D"⟩]
        "Team B").Pts =
      3 * (team_stats_for
          [⟨"Team A", "Team B", 2, 0, "H"⟩, ⟨"Team C", "Team B", 1, 1, "D"⟩]
          "Team B").W +
        (team_stats_for
          [⟨"Team A", "Team B", 2, 0, "H"⟩, ⟨"Team C", "Team B", 1, 1, "D"⟩]
          "Team B").D :=
  C10_aggregate_invariants [⟨3 / 2, 1, 2, 1, "w"⟩] "X" (by decide)
    [⟨"Team A", "Team B", 2, 0, "H"⟩, ⟨"Team C", "Team B", 1, 1, "D"⟩]
    "Team B" (by decide)
